import Mathlib

/-!
Verification development for the `usb-midi` MicroPython repository
(multi-port USB MIDI 1.0 device libraries).

The descriptor builders and the transfer/codec engine of the following
source files are shallowly embedded below:

* `src/usb/device/midi_multi.py`            — namespace `MidiMulti`
  (shared-endpoint strategy; class `MidiMulti`)
* `src/usb/device/midi_multi_cable.py`      — namespace `MidiMultiCable`
  (shared-endpoint strategy with per-cable jack sets; class `MidiMulti`)
* `src/usb/device/midi_multi_streaming.py`  — namespace `MidiMultiStreaming`
  (per-port-interface strategy; class `MidiPortInterface`)
* `src/usb_midi_multi_port.py`              — namespace `MidiMultiPort`
  (per-cable-endpoint strategy; class `MidiMultiCable`)

Descriptors are embedded as lists of byte blocks (`List (List Nat)`), one
block per `desc.pack` / `desc.interface` call, with multi-byte (`H`) fields
split into little-endian byte pairs exactly as `struct.pack` emits them.
MicroPython's `struct.pack` silently ignores surplus arguments (a documented
difference from CPython); where the source passes more values than the
format string consumes, the embedding keeps only the bytes actually emitted.

The runtime engine (ring buffers, transfer pumps, packet codec, dispatch)
is embedded as pure state-transition functions over `MidiState`.  The
`Buffer` class and the `Interface` base class live in the external
`usb.device.core` library (micropython-lib), which is not part of this
repository; they are modelled from the specification's RingBuffer data
model and USB Device Stack collaborator contract.
-/

set_option maxHeartbeats 1000000

namespace UsbMidi

/-- Second byte of a descriptor block (bDescriptorType). -/
def descType (b : List Nat) : Nat := b.getD 1 0

/-- A class-specific descriptor block: CS_INTERFACE (0x24) or CS_ENDPOINT (0x25). -/
def isClassSpecific (b : List Nat) : Bool := descType b == 0x24 || descType b == 0x25

/-- A jack descriptor block: CS_INTERFACE with subtype MIDI_IN_JACK (2) or MIDI_OUT_JACK (3). -/
def isJack (b : List Nat) : Bool :=
  descType b == 0x24 && (b.getD 2 0 == 2 || b.getD 2 0 == 3)

/-- A class-specific endpoint descriptor block (CS_ENDPOINT, 0x25). -/
def isClassEp (b : List Nat) : Bool := descType b == 0x25

/-- A standard endpoint descriptor block (ENDPOINT, 0x05). -/
def isStdEp (b : List Nat) : Bool := descType b == 0x05

/-- Total byte count of the class-specific descriptor blocks in a block list. -/
def csBytes (blocks : List (List Nat)) : Nat :=
  ((blocks.filter isClassSpecific).map List.length).sum

/-- Total byte count of the jack descriptor blocks in a block list. -/
def jackBytes (blocks : List (List Nat)) : Nat :=
  ((blocks.filter isJack).map List.length).sum

/-- The jack ids (bJackID, byte index 4) of the jack blocks, in emission order. -/
def jackIds (blocks : List (List Nat)) : List Nat :=
  (blocks.filter isJack).map (fun b => b.getD 4 0)

/-- Every block's first byte (bLength) equals the block's actual byte count. -/
def bLengthOk (blocks : List (List Nat)) : Bool :=
  blocks.all (fun b => b.getD 0 0 == b.length)

/-- An embedded IN jack block (subtype 2, jack type 1). -/
def isEmbInJack (b : List Nat) : Bool :=
  descType b == 0x24 && b.getD 2 0 == 2 && b.getD 3 0 == 1

/-- An external IN jack block (subtype 2, jack type 2). -/
def isExtInJack (b : List Nat) : Bool :=
  descType b == 0x24 && b.getD 2 0 == 2 && b.getD 3 0 == 2

/-- An embedded OUT jack block (subtype 3, jack type 1). -/
def isEmbOutJack (b : List Nat) : Bool :=
  descType b == 0x24 && b.getD 2 0 == 3 && b.getD 3 0 == 1

/-- An external OUT jack block (subtype 3, jack type 2). -/
def isExtOutJack (b : List Nat) : Bool :=
  descType b == 0x24 && b.getD 2 0 == 3 && b.getD 3 0 == 2

namespace Descriptor

/-- Modelled from the spec: the USB Device Stack's descriptor byte writer
(§6 collaborator contract).  `Descriptor.interface` of `usb.device.core`
emits a standard 9-byte interface descriptor
(bLength 9, bDescriptorType INTERFACE=4, bAlternateSetting 0). -/
def interface (itf_num bNumEndpoints bInterfaceClass bInterfaceSubClass
    bInterfaceProtocol iInterface : Nat) : List Nat :=
  [9, 4, itf_num, 0, bNumEndpoints, bInterfaceClass, bInterfaceSubClass,
   bInterfaceProtocol, iInterface]

/-- Modelled from the spec: `Descriptor.interface_assoc` of `usb.device.core`
emits a standard 8-byte interface association descriptor
(bLength 8, bDescriptorType INTERFACE_ASSOC=11, iFunction 0). -/
def interface_assoc (first_itf itf_count bFunctionClass bFunctionSubClass
    bFunctionProtocol : Nat) : List Nat :=
  [8, 11, first_itf, itf_count, bFunctionClass, bFunctionSubClass,
   bFunctionProtocol, 0]

end Descriptor

/-- Class-specific MIDIStreaming interface header, `pack('<BBBHH', 7, 0x24,
0x01, 0x0100, w)`: bLength 7, CS_INTERFACE, MS_HEADER, bcdADC 1.0 (LE bytes
0x00 0x01), wTotalLength in little-endian bytes.  Identical in all three
builders. -/
def ms_header (w : Nat) : List Nat :=
  [7, 0x24, 0x01, 0x00, 0x01, w % 256, w / 256 % 256]

namespace MidiMulti

/-! Embedding of `MidiMulti.desc_cfg` from `src/usb/device/midi_multi.py`
(lines 153–204): shared-endpoint strategy, one MIDIStreaming interface,
one OUT and one IN endpoint for all cables. -/

/-- Line 163: `total_class_specific_len = 7 + num_in*_JACK_IN_DESC_LEN
+ num_out*_JACK_OUT_DESC_LEN + num_out*_JACK_IN_DESC_LEN
+ num_in*_JACK_OUT_DESC_LEN`. -/
def total_class_specific_len (num_in num_out : Nat) : Nat :=
  7 + num_in * 6 + num_out * 9 + num_out * 6 + num_in * 9

/-- MIDI IN jack descriptor, `pack('<BBBBBB', 6, 0x24, 0x02, jackType, id, 0)`. -/
def jack_in (jackType id : Nat) : List Nat := [6, 0x24, 0x02, jackType, id, 0]

/-- MIDI OUT jack descriptor,
`pack('<BBBBBBBBB', 9, 0x24, 0x03, jackType, id, 0x01, srcId, 1, 0)`. -/
def jack_out (jackType id srcId : Nat) : List Nat :=
  [9, 0x24, 0x03, jackType, id, 1, srcId, 1, 0]

/-- Standard audio endpoint descriptor,
`pack('<BBBBHBBB', 9, 0x05, addr, 3, 64, 0, 0, 0)` (wMaxPacketSize 64 LE). -/
def std_ep (addr : Nat) : List Nat := [9, 0x05, addr, 3, 64, 0, 0, 0, 0]

/-- Class-specific endpoint descriptor, `pack('<BBBBB', 5, 0x25, 0x01, count,
*[ids])`.  The format string consumes five values, so MicroPython emits only
the first listed jack id; the surplus ids are silently dropped. -/
def class_ep (count firstJack : Nat) : List Nat := [5, 0x25, 0x01, count, firstJack]

/-- The blocks emitted after the class-specific MIDIStreaming header, within
the MIDIStreaming interface (lines 165–191): embedded IN jacks (`range
num_in`), embedded OUT jacks (`range num_out`), external OUT jacks (`range
num_out`), external IN jacks (`range num_in`), then the shared OUT endpoint
pair and shared IN endpoint pair. -/
def ms_tail (num_in num_out ep_num : Nat) : List (List Nat) :=
  ((List.range num_in).map fun i => jack_in 1 (1 + i))
  ++ ((List.range num_out).map fun i => jack_out 1 (1 + num_in + i) (1 + i))
  ++ ((List.range num_out).map fun i => jack_out 2 (1 + num_in + num_out + i) (1 + i))
  ++ ((List.range num_in).map fun i => jack_in 2 (1 + num_in + 2 * num_out + i))
  ++ [std_ep ep_num, class_ep num_in 1,
      std_ep (ep_num ||| 0x80), class_ep num_out (1 + num_in)]

/-- Class-specific AudioControl header,
`pack('<BBBHHBB', 9, 0x24, 0x01, 0x0100, 0x0009, 0x01, itf_num + 1)`. -/
def ac_header (itf_num : Nat) : List Nat :=
  [9, 0x24, 0x01, 0x00, 0x01, 9, 0, 1, itf_num + 1]

/-- `MidiMulti.desc_cfg` (midi_multi.py): IAD, AudioControl interface and
header, MIDIStreaming interface, class-specific MS header, then jacks and
endpoints. -/
def desc_cfg (num_in num_out itf_num ep_num : Nat) : List (List Nat) :=
  [Descriptor.interface_assoc itf_num 2 1 1 0,
   Descriptor.interface itf_num 0 1 1 0 0,
   ac_header itf_num,
   Descriptor.interface (itf_num + 1) 2 1 3 0 0,
   ms_header (total_class_specific_len num_in num_out)]
  ++ ms_tail num_in num_out ep_num

end MidiMulti

namespace MidiMultiCable

/-! Embedding of `MidiMulti.desc_cfg` from `src/usb/device/midi_multi_cable.py`
(lines 96–250): shared-endpoint strategy; `num_jack_sets = max(num_in,
num_out)` full jack sets, each with embedded+external IN and OUT jacks. -/

/-- `_ADD_EXTERNAL_JACKS = const(True)` (line 35). -/
def ADD_EXTERNAL_JACKS : Bool := true

/-- `__init__` line 51–53: `in_names = in_names or [None]*num_in`, then padded
with `None` up to `num_in` entries. -/
def init_in_names (names : Option (List (Option String))) (num_in : Nat) :
    List (Option String) :=
  let base := match names with
    | none => List.replicate num_in none
    | some l => if l.isEmpty then List.replicate num_in none else l
  base ++ List.replicate (num_in - base.length) none

/-- `__init__` line 55–57: `out_names = out_names or [None]*num_out`, then
padded with `None` while shorter than `num_in` (the source's loop bound). -/
def init_out_names (names : Option (List (Option String))) (num_in num_out : Nat) :
    List (Option String) :=
  let base := match names with
    | none => List.replicate num_out none
    | some l => if l.isEmpty then List.replicate num_out none else l
  base ++ List.replicate (num_in - base.length) none

/-- Line 133: `wTotalLength = 7 + 2 * num_jack_sets * (6 + 9) if
_ADD_EXTERNAL_JACKS else 7 + num_jack_sets * (6 + 9)`. -/
def wTotalLength (num_in num_out : Nat) : Nat :=
  if ADD_EXTERNAL_JACKS then 7 + 2 * (max num_in num_out) * (6 + 9)
  else 7 + (max num_in num_out) * (6 + 9)

/-- State threaded through the jack-emission loop of `desc_cfg`: blocks
emitted so far, the shared string table, the collected embedded IN/OUT jack
ids, and the running jack id counter. -/
structure JackLoopState where
  blocks : List (List Nat)
  strs : List String
  in_emb_jack_ids : List Nat
  out_emb_jack_ids : List Nat
  jack_id : Nat
deriving DecidableEq

/-- One iteration of the loop at lines 149–216: embedded IN jack (collected
for `i < num_in`), external IN jack, embedded OUT jack (collected for
`i < num_out`), external OUT jack.  `in_names[i]` / `out_names[i]` raise
`IndexError` (modelled as `.error`) when the padded name lists are shorter
than `num_jack_sets`.  A name allocates string index `len(strs)` and is
appended to the table; the IN-jack string index is reused for the external
IN jack, the OUT-jack one for the external OUT jack, as in the source. -/
def jack_set (num_in num_out : Nat) (in_names out_names : List (Option String))
    (st : JackLoopState) (i : Nat) : Except String JackLoopState := do
  let nameI ← match in_names.get? i with
    | some v => Except.ok v
    | none => Except.error "IndexError"
  let (iJack, strs) := match nameI with
    | none => (0, st.strs)
    | some nm => (st.strs.length, st.strs ++ [nm])
  let in_emb_jack_id := st.jack_id
  let blocks := st.blocks ++ [[6, 0x24, 2, 1, in_emb_jack_id, iJack]]
  let in_ids := if i < num_in then st.in_emb_jack_ids ++ [in_emb_jack_id]
                else st.in_emb_jack_ids
  let jid := in_emb_jack_id + 1
  let (blocks, in_ext_jack_id, jid) :=
    if ADD_EXTERNAL_JACKS then (blocks ++ [[6, 0x24, 2, 2, jid, iJack]], jid, jid + 1)
    else (blocks, in_emb_jack_id, jid)
  let nameO ← match out_names.get? i with
    | some v => Except.ok v
    | none => Except.error "IndexError"
  let (iJackO, strs) := match nameO with
    | none => (0, strs)
    | some nm => (strs.length, strs ++ [nm])
  let in_jack_id := if ADD_EXTERNAL_JACKS then in_ext_jack_id else in_emb_jack_id
  let out_emb_jack_id := jid
  let blocks := blocks ++ [[9, 0x24, 3, 1, out_emb_jack_id, 1, in_jack_id, 1, iJackO]]
  let out_ids := if i < num_out then st.out_emb_jack_ids ++ [out_emb_jack_id]
                 else st.out_emb_jack_ids
  let jid := out_emb_jack_id + 1
  let (blocks, jid) :=
    if ADD_EXTERNAL_JACKS then
      (blocks ++ [[9, 0x24, 3, 2, jid, 1, in_emb_jack_id, 1, iJackO]], jid + 1)
    else (blocks, jid)
  Except.ok ⟨blocks, strs, in_ids, out_ids, jid⟩

/-- Blocks emitted after the class-specific MS header (lines 141–250): the
jack loop over `range num_jack_sets` starting at jack id 1, then the shared
OUT endpoint (`pack('<BBBBHB', 7, 5, ep_num, 2, 64, 0)`), its CS endpoint
descriptor (`pack('<BBBB' + num_in*'B', 4 + num_in, 0x25, 1, num_in,
*in_emb_jack_ids)`), and the shared IN endpoint pair likewise. -/
def ms_tail (num_in num_out : Nat) (in_names out_names : List (Option String))
    (ep_num : Nat) (strs : List String) :
    Except String (List (List Nat) × List String) := do
  let st ← (List.range (max num_in num_out)).foldlM
      (jack_set num_in num_out in_names out_names) ⟨[], strs, [], [], 1⟩
  let eps := [[7, 5, ep_num, 2, 64, 0, 0],
              [4 + num_in, 0x25, 1, num_in] ++ st.in_emb_jack_ids,
              [7, 5, ep_num ||| 0x80, 2, 64, 0, 0],
              [4 + num_out, 0x25, 1, num_out] ++ st.out_emb_jack_ids]
  Except.ok (st.blocks ++ eps, st.strs)

/-- `MidiMulti.desc_cfg` (midi_multi_cable.py): AudioControl interface and
header (`pack('<BBBHHBB', 9, 0x24, 1, 0x0100, 9, 1, itf_num+1)`),
MIDIStreaming interface, class-specific MS header, jacks, endpoints.
The commented-out IAD is not emitted. -/
def desc_cfg (num_in num_out : Nat) (in_names out_names : List (Option String))
    (itf_num ep_num : Nat) (strs : List String) :
    Except String (List (List Nat) × List String) := do
  let (tail, strs') ← ms_tail num_in num_out in_names out_names ep_num strs
  Except.ok
    ([Descriptor.interface itf_num 0 1 1 0 0,
      [9, 0x24, 1, 0x00, 0x01, 9, 0, 1, itf_num + 1],
      Descriptor.interface (itf_num + 1) 2 1 3 0 0,
      ms_header (wTotalLength num_in num_out)] ++ tail, strs')

end MidiMultiCable

namespace MidiMultiStreaming

/-! Embedding of `MidiPortInterface.desc_cfg` from
`src/usb/device/midi_multi_streaming.py` (lines 160–269): one MIDIStreaming
interface per port, each with its own endpoint pair. -/

/-- `_ADD_EXTERNAL_JACKS = const(False)` (line 43). -/
def ADD_EXTERNAL_JACKS : Bool := false

/-- Line 176: `wTotalLength = 7 + 2 * (6 + 9) if _ADD_EXTERNAL_JACKS else
7 + 6 + 9`. -/
def wTotalLength : Nat :=
  if ADD_EXTERNAL_JACKS then 7 + 2 * (6 + 9) else 7 + 6 + 9

/-- Blocks emitted after the class-specific MS header in a port's interface
(lines 184–269): embedded IN jack, (external IN jack), embedded OUT jack,
(external OUT jack), then an OUT endpoint pair if `add_in` and an IN
endpoint pair if `add_out` (`pack('<BBBBHB', 7, 5, ep, 2, 64, 0)` and
`pack('<BBBBB', 5, 0x25, 1, 1, jack)`).  `iJack` is the port name's string
index (0 if unnamed), reused for the embedded OUT jack. -/
def port_ms_tail (port_index : Nat) (add_in add_out : Bool)
    (iJack ep_num : Nat) : List (List Nat) :=
  let in_emb_jack_id := 1 + (if ADD_EXTERNAL_JACKS then 4 else 2) * port_index
  let in_ext_jack_id := in_emb_jack_id + 1
  let out_emb_jack_id :=
    (if ADD_EXTERNAL_JACKS then in_ext_jack_id else in_emb_jack_id) + 1
  let out_ext_jack_id := out_emb_jack_id + 1
  let blocks := [[6, 0x24, 2, 1, in_emb_jack_id, iJack]]
  let blocks := if ADD_EXTERNAL_JACKS then
      blocks ++ [[6, 0x24, 2, 2, in_ext_jack_id, 0]] else blocks
  let in_jack_id := if ADD_EXTERNAL_JACKS then in_ext_jack_id else in_emb_jack_id
  let blocks := blocks ++ [[9, 0x24, 3, 1, out_emb_jack_id, 1, in_jack_id, 1, iJack]]
  let blocks := if ADD_EXTERNAL_JACKS then
      blocks ++ [[9, 0x24, 3, 2, out_ext_jack_id, 1, in_emb_jack_id, 1, 0]]
    else blocks
  let blocks := if add_in then
      blocks ++ [[7, 5, ep_num, 2, 64, 0, 0], [5, 0x25, 1, 1, in_emb_jack_id]]
    else blocks
  if add_out then
    blocks ++ [[7, 5, ep_num ||| 0x80, 2, 64, 0, 0], [5, 0x25, 1, 1, out_emb_jack_id]]
  else blocks

/-- `MidiPortInterface.desc_cfg`: the MIDIStreaming interface descriptor
(`bNumEndpoints = add_in + add_out`), the class-specific MS header, then
the jacks and endpoints; threads the string table for the port name. -/
def port_desc_cfg (port_index : Nat) (add_in add_out : Bool)
    (port_name : Option String) (ms_if_num ep_num : Nat) (strs : List String) :
    List (List Nat) × List String :=
  let bNumEndpoints := (if add_in then 1 else 0) + (if add_out then 1 else 0)
  let (iJack, strs) := match port_name with
    | none => (0, strs)
    | some nm => (strs.length, strs ++ [nm])
  ([Descriptor.interface ms_if_num bNumEndpoints 1 3 0 0,
    ms_header wTotalLength] ++ port_ms_tail port_index add_in add_out iJack ep_num,
   strs)

end MidiMultiStreaming

namespace MidiMultiPort

/-! Embedding of `MidiMultiCable.desc_cfg` from `src/usb_midi_multi_port.py`
(lines 25–58): per-cable-endpoint strategy with `num_ports` symmetric ports,
each with four jacks and its own endpoint pair. -/

/-- `_jack_in_desc` (line 71). -/
def jack_in_desc (bJackType bJackID : Nat) : List Nat :=
  [6, 0x24, 0x02, bJackType, bJackID, 0]

/-- `_jack_out_desc` (line 74). -/
def jack_out_desc (bJackType bJackID bSourceId bSourcePin : Nat) : List Nat :=
  [9, 0x24, 0x03, bJackType, bJackID, 1, bSourceId, bSourcePin, 0]

/-- `_audio_endpoint` (line 77): `pack('<BBBBHBBB', 9, 0x05, addr, 2, 32, 0,
0, 0)` with `EP_MIDI_PACKET_SIZE = 32`. -/
def audio_endpoint (bEndpointAddress : Nat) : List Nat :=
  [9, 0x05, bEndpointAddress, 2, 32, 0, 0, 0, 0]

/-- `_midi_class_ep` (line 80): `pack('<BBBBB', 5, 0x25, 0x01, 1, jack_id)`. -/
def midi_class_ep (jack_id : Nat) : List Nat := [5, 0x25, 0x01, 1, jack_id]

/-- `midi_ep_out(n) = 0x01 + n` (line 17). -/
def midi_ep_out (n : Nat) : Nat := 0x01 + n

/-- `midi_ep_in(n) = 0x81 + n` (line 18). -/
def midi_ep_in (n : Nat) : Nat := 0x81 + n

/-- Line 35: `total_class_len = 7 + 2*num_ports*6 + 2*num_ports*9`. -/
def total_class_len (num_ports : Nat) : Nat :=
  7 + 2 * num_ports * 6 + 2 * num_ports * 9

/-- Blocks after the class-specific MS header (lines 41–58): for each port,
embedded IN, external IN, embedded OUT (sourced from the external IN),
external OUT (sourced from the embedded IN); then for each port an IN
endpoint pair and an OUT endpoint pair. -/
def ms_tail (num_ports : Nat) : List (List Nat) :=
  ((List.range num_ports).flatMap fun i =>
    [jack_in_desc 1 (1 + i),
     jack_in_desc 2 (1 + num_ports + i),
     jack_out_desc 1 (1 + 2 * num_ports + i) (1 + num_ports + i) 1,
     jack_out_desc 2 (1 + 3 * num_ports + i) (1 + i) 1])
  ++ ((List.range num_ports).flatMap fun i =>
    [audio_endpoint (midi_ep_in i), midi_class_ep (1 + 2 * num_ports + i),
     audio_endpoint (midi_ep_out i), midi_class_ep (1 + i)])

/-- `_get_str_idx` (line 63): 0 for an empty name; the 1-based position of an
existing entry; otherwise append and return the new length. -/
def get_str_idx (strs : List String) (s : String) : Nat × List String :=
  if s = "" then (0, strs)
  else match strs.indexOf? s with
    | some i => (i + 1, strs)
    | none => (strs.length + 1, strs ++ [s])

/-- `MidiMultiCable.desc_cfg` (usb_midi_multi_port.py): AudioControl
interface (with the AC interface-name string index) and header,
MIDIStreaming interface with `2*num_ports` endpoints, class-specific MS
header, jacks and endpoints. -/
def desc_cfg (num_ports : Nat) (ac_interface_name : String)
    (itf_num : Nat) (strs : List String) : List (List Nat) × List String :=
  let (ac_if_str_idx, strs) := get_str_idx strs ac_interface_name
  ([Descriptor.interface itf_num 0 1 1 ac_if_str_idx 0,
    [9, 0x24, 0x01, 0x00, 0x01, 9, 0, 1, itf_num + 1],
    Descriptor.interface (itf_num + 1) (2 * num_ports) 1 3 0 0,
    ms_header (total_class_len num_ports)] ++ ms_tail num_ports, strs)

end MidiMultiPort

/-! ## Runtime engine of `src/usb/device/midi_multi.py`

`Buffer` (from the external `usb.device.core`, not part of this repository)
is modelled from the spec's data model: *"RingBuffer: fixed-capacity byte
queue, single-producer/single-consumer per direction"*.  `pend_write`
exposes the free space, `finish_write` commits bytes, `pend_read` exposes
the queued bytes, `finish_read` consumes from the front.

The `Interface` base class services (`is_open`, `xfer_pending`,
`submit_xfer`) are modelled from the spec's USB Device Stack collaborator
contract (§6): `submit(endpoint, buffer) → completion(endpoint, status,
length)` plus a transfer-pending query.  Submitting marks the direction
pending; the stack clears the pending flag before invoking the completion
callback.  State transitions return the number of `submit_xfer` calls they
issue so that claims about transfer submission can be stated.
-/

/-- Modelled from the spec: the RingBuffer data model (§3).  `data` is the
queued byte content, `cap` the fixed capacity. -/
structure Buffer where
  cap : Nat
  data : List Nat
deriving DecidableEq

namespace Buffer

/-- Free space available to `pend_write` (spec: fixed-capacity queue). -/
def writableLen (b : Buffer) : Nat := b.cap - b.data.length

/-- `readable()`: number of queued bytes. -/
def readableLen (b : Buffer) : Nat := b.data.length

/-- `pend_read()`: the queued bytes. -/
def pend_read (b : Buffer) : List Nat := b.data

/-- `finish_read(n)`: consume `n` bytes from the front. -/
def finish_read (b : Buffer) (n : Nat) : Buffer := { b with data := b.data.drop n }

/-- `finish_write`: commit bytes written into the pended area. -/
def finish_write (b : Buffer) (bs : List Nat) : Buffer := { b with data := b.data ++ bs }

end Buffer

/-- Runtime state of a `MidiMulti` instance (midi_multi.py) together with
the modelled per-direction transfer-pending flags of the USB Device Stack:
`opened` is `is_open()`, `txPending`/`rxPending` are `xfer_pending(ep_in)` /
`xfer_pending(ep_out)`, `tx_buffer`/`rx_buffer` are `_tx_buffer`/`_rx_buffer`. -/
structure MidiState where
  opened : Bool
  txPending : Bool
  rxPending : Bool
  tx_buffer : Buffer
  rx_buffer : Buffer
deriving DecidableEq

namespace MidiMulti

/-- `MidiMulti._tx_xfer` (lines 103–110): `if self.is_open() and not
self.xfer_pending(self.ep_in) and _tx_buffer.readable():
self.submit_xfer(...)`.  Returns the new state and the number of submits
issued (0 or 1); a submit marks the TX direction pending. -/
def tx_xfer (s : MidiState) : MidiState × Nat :=
  if s.opened && !s.txPending && s.tx_buffer.readableLen != 0 then
    ({ s with txPending := true }, 1)
  else (s, 0)

/-- `MidiMulti._rx_xfer` (lines 117–123): submit an OUT transfer whenever
the device is open, none is pending and the RX buffer has free space. -/
def rx_xfer (s : MidiState) : MidiState × Nat :=
  if s.opened && !s.rxPending && s.rx_buffer.writableLen != 0 then
    ({ s with rxPending := true }, 1)
  else (s, 0)

/-- `MidiMulti.send_event` (lines 80–101).  `w = pend_write()`; if fewer
than 4 bytes fit, return `False`.  Otherwise the four packet bytes are
stored through the `memoryview`; a value above 255 makes the byte
assignment raise `ValueError` (modelled as `.error`), leaving the queued
content unchanged.  On success `finish_write(4)` queues the packet and
`_tx_xfer()` runs.  Result: new state, the Python return value, and the
number of submits issued. -/
def send_event (s : MidiState) (cable cin midi0 midi1 midi2 : Nat) :
    Except String (MidiState × Bool × Nat) :=
  if s.tx_buffer.writableLen < 4 then Except.ok (s, false, 0)
  else
    let b0 := (cable <<< 4) ||| cin
    if 255 < b0 then Except.error "ValueError"
    else if 255 < midi0 then Except.error "ValueError"
    else if 255 < midi1 then Except.error "ValueError"
    else if 255 < midi2 then Except.error "ValueError"
    else
      let s := { s with tx_buffer := s.tx_buffer.finish_write [b0, midi0, midi1, midi2] }
      let r := tx_xfer s
      Except.ok (r.1, true, r.2)

/-- `MidiMulti._tx_cb` (lines 112–115): the stack clears the pending flag
before the completion callback runs; `if res == 0:
self._tx_buffer.finish_read(num_bytes)`; then `self._tx_xfer()`. -/
def tx_cb (s : MidiState) (res num_bytes : Nat) : MidiState × Nat :=
  let s := { s with txPending := false }
  let s := if res == 0 then { s with tx_buffer := s.tx_buffer.finish_read num_bytes }
           else s
  tx_xfer s

/-- `MidiMulti._rx_cb` (lines 125–130): the stack clears the pending flag;
on `res == 0` the received bytes are committed with `finish_write` and a
deferred `_on_rx` decode task is scheduled (third component `true`);
`self._rx_xfer()` runs unconditionally. -/
def rx_cb (s : MidiState) (res : Nat) (incoming : List Nat) :
    MidiState × Nat × Bool :=
  let s := { s with rxPending := false }
  if res == 0 then
    let s := { s with rx_buffer := s.rx_buffer.finish_write incoming }
    let r := rx_xfer s
    (r.1, r.2, true)
  else
    let r := rx_xfer s
    (r.1, r.2, false)

/-- `MidiMulti.on_open` (lines 147–151): mark the device open, then kick
off `_tx_xfer()` and `_rx_xfer()`.  Returns the state and the TX/RX submit
counts. -/
def on_open (s : MidiState) : MidiState × Nat × Nat :=
  let s := { s with opened := true }
  let t := tx_xfer s
  let r := rx_xfer t.1
  (r.1, t.2, r.2)

/-- An application handler registered with `set_in_callback`: receives
`(cin, midi0, midi1, midi2)`; the Bool result models whether the call
returns normally (`true`) or raises (`false`) — either way the bare
`try/except: pass` in `_on_rx` swallows the outcome. -/
def Handler := Nat → Nat → Nat → Nat → Bool

/-- One recorded handler invocation during decode: the cable it was
dispatched to and the `(cin, midi0, midi1, midi2)` arguments. -/
structure Inv where
  cable : Nat
  cin : Nat
  d0 : Nat
  d1 : Nat
  d2 : Nat
deriving DecidableEq

/-- Whether cable `c` has a registered handler: `_in_callbacks[c]` exists
and is not `None`. -/
def registered (cbs : List (Option Handler)) (c : Nat) : Bool :=
  match cbs.get? c with
  | some (some _) => true
  | _ => false

/-- One iteration of the `_on_rx` decode loop body (lines 138–143):
`cable = m[i] >> 4`, `cin = m[i] & 0x0F`, then
`self._in_callbacks[cable](cin, *m[i+1:i+4])` inside `try/except: pass`.
An out-of-range cable (IndexError) or unregistered cable (`None` called,
TypeError) is swallowed and produces no invocation; a registered handler
is invoked (whether or not it raises). -/
def dispatch_one (cbs : List (Option Handler)) (a b c d : Nat) : List Inv :=
  match cbs.get? (a >>> 4) with
  | some (some _) => [⟨a >>> 4, a &&& 0x0F, b, c, d⟩]
  | _ => []

/-- The `while i <= len(m) - 4` loop of `_on_rx` (lines 136–144): process
consecutive 4-byte groups from the front, advancing `i` by 4 each
iteration; return the handler invocations in order and the final `i`
(the byte count passed to `finish_read`). -/
def on_rx_loop (cbs : List (Option Handler)) : List Nat → List Inv × Nat
  | a :: b :: c :: d :: rest =>
    let r := on_rx_loop cbs rest
    (dispatch_one cbs a b c d ++ r.1, r.2 + 4)
  | _ => ([], 0)

/-- `MidiMulti._on_rx` (lines 132–145): decode the RX buffer content and
`finish_read` the decoded byte count.  Returns the new state and the
handler invocations. -/
def on_rx (cbs : List (Option Handler)) (s : MidiState) : MidiState × List Inv :=
  let m := s.rx_buffer.pend_read
  let r := on_rx_loop cbs m
  ({ s with rx_buffer := s.rx_buffer.finish_read r.2 }, r.1)

end MidiMulti

namespace MidiMultiCable

/-- `MidiMulti._on_rx` of midi_multi_cable.py (lines 288–302) is the same
decode loop as midi_multi.py's (modulo caching locals): it reuses the
identical loop embedding. -/
def on_rx (cbs : List (Option MidiMulti.Handler)) (s : MidiState) :
    MidiState × List MidiMulti.Inv :=
  let m := s.rx_buffer.pend_read
  let r := MidiMulti.on_rx_loop cbs m
  ({ s with rx_buffer := s.rx_buffer.finish_read r.2 }, r.1)

end MidiMultiCable

/-- The consecutive complete 4-byte groups of a byte list, in order. -/
def groups4 : List Nat → List (Nat × Nat × Nat × Nat)
  | a :: b :: c :: d :: rest => (a, b, c, d) :: groups4 rest
  | _ => []

instance {ε α : Type} [DecidableEq ε] [DecidableEq α] : DecidableEq (Except ε α) := fun x y =>
  match x, y with
  | .error e, .error f =>
    if h : e = f then .isTrue (by rw [h]) else .isFalse (fun hh => h (by cases hh; rfl))
  | .ok a, .ok b =>
    if h : a = b then .isTrue (by rw [h]) else .isFalse (fun hh => h (by cases hh; rfl))
  | .error _, .ok _ => .isFalse (fun hh => Except.noConfusion hh)
  | .ok _, .error _ => .isFalse (fun hh => Except.noConfusion hh)

/-- Proof helper: the four descriptor blocks one iteration of the
midi_multi_cable.py jack loop emits when the port names are `None`, for a
loop entry jack id `j`: embedded IN `j`, external IN `j+1`, embedded OUT
`j+2` (sourced from the external IN), external OUT `j+3` (sourced from the
embedded IN). -/
def cable_set_blocks (j : Nat) : List (List Nat) :=
  [[6, 0x24, 2, 1, j, 0],
   [6, 0x24, 2, 2, j + 1, 0],
   [9, 0x24, 3, 1, j + 2, 1, j + 1, 1, 0],
   [9, 0x24, 3, 2, j + 3, 1, j, 1, 0]]

/-- Proof helper: the jack blocks accumulated by `k` iterations of the
midi_multi_cable.py jack loop (names `None`), starting from jack id 1. -/
def cable_fold_blocks (k : Nat) : List (List Nat) :=
  (List.range k).flatMap (fun t => cable_set_blocks (1 + 4 * t))

/-! ## Helper lemmas -/

/-- The decode loop dispatches the consecutive 4-byte groups in order and
returns `4 * ⌊length / 4⌋` as the consumed byte count. -/
lemma on_rx_loop_eq (cbs : List (Option MidiMulti.Handler)) (m : List Nat) :
    MidiMulti.on_rx_loop cbs m =
      ((groups4 m).flatMap
        (fun g => MidiMulti.dispatch_one cbs g.1 g.2.1 g.2.2.1 g.2.2.2),
       4 * (m.length / 4)) := by
  induction m using groups4.induct with
  | case1 a b c d rest ih =>
    simp only [MidiMulti.on_rx_loop, groups4, ih, List.flatMap_cons]
    refine Prod.ext rfl ?_
    simp only [List.length_cons]
    omega
  | case2 t ht =>
    rcases t with _ | ⟨a, _ | ⟨b, _ | ⟨c, _ | ⟨d, r⟩⟩⟩⟩
    · simp [MidiMulti.on_rx_loop, groups4]
    · simp [MidiMulti.on_rx_loop, groups4]
    · simp [MidiMulti.on_rx_loop, groups4]
    · simp [MidiMulti.on_rx_loop, groups4]
    · exact (ht a b c d r rfl).elim

/-- There is one complete 4-byte group per 4 buffered bytes. -/
lemma groups4_length (m : List Nat) : (groups4 m).length = m.length / 4 := by
  induction m using groups4.induct with
  | case1 a b c d rest ih =>
    simp only [groups4, List.length_cons, ih]
    omega
  | case2 t ht =>
    rcases t with _ | ⟨a, _ | ⟨b, _ | ⟨c, _ | ⟨d, r⟩⟩⟩⟩
    · simp [groups4]
    · simp [groups4]
    · simp [groups4]
    · simp [groups4]
    · exact (ht a b c d r rfl).elim

/-- A group is dispatched exactly when its cable has a registered handler. -/
lemma dispatch_one_ite (cbs : List (Option MidiMulti.Handler)) (a b c d : Nat) :
    MidiMulti.dispatch_one cbs a b c d =
      if MidiMulti.registered cbs (a >>> 4) then
        [⟨a >>> 4, a &&& 0x0F, b, c, d⟩] else [] := by
  unfold MidiMulti.dispatch_one MidiMulti.registered
  rcases h : cbs.get? (a >>> 4) with _ | (_ | f) <;> simp

/-- Whether a cable is registered depends only on the pattern of `Some`
entries, not on the handler functions themselves. -/
lemma registered_pattern : ∀ cbs cbs' : List (Option MidiMulti.Handler),
    cbs.map Option.isSome = cbs'.map Option.isSome →
    ∀ c, MidiMulti.registered cbs c = MidiMulti.registered cbs' c := by
  intro cbs
  induction cbs with
  | nil =>
    intro cbs' h c
    cases cbs' with
    | nil => rfl
    | cons b t' => simp at h
  | cons a t ih =>
    intro cbs' h c
    cases cbs' with
    | nil => simp at h
    | cons b t' =>
      simp only [List.map_cons, List.cons.injEq] at h
      cases c with
      | zero =>
        rcases a with _ | f <;> rcases b with _ | g <;>
          simp [MidiMulti.registered] at h ⊢
      | succ c => exact ih t' h.2 c

/-- The dispatched invocations are exactly the groups whose cable is
registered, decoded in buffer order. -/
lemma flatMap_dispatch (cbs : List (Option MidiMulti.Handler))
    (gs : List (Nat × Nat × Nat × Nat)) :
    gs.flatMap (fun g => MidiMulti.dispatch_one cbs g.1 g.2.1 g.2.2.1 g.2.2.2) =
      (gs.filter (fun g => MidiMulti.registered cbs (g.1 >>> 4))).map
        (fun g => ⟨g.1 >>> 4, g.1 &&& 0x0F, g.2.1, g.2.2.1, g.2.2.2⟩) := by
  induction gs with
  | nil => simp
  | cons g gs ih =>
    rw [List.flatMap_cons, List.filter_cons, ih, dispatch_one_ite]
    by_cases hr : MidiMulti.registered cbs (g.1 >>> 4) = true <;> simp [hr]

end UsbMidi
namespace UsbMidi

section MultiLemmas

open MidiMulti

@[simp] lemma isJack_jack_in (t x : Nat) : isJack (jack_in t x) = true := rfl
@[simp] lemma isJack_jack_out (t x s : Nat) : isJack (jack_out t x s) = true := rfl
@[simp] lemma isJack_std_ep (a : Nat) : isJack (std_ep a) = false := rfl
@[simp] lemma isJack_class_ep (c f : Nat) : isJack (class_ep c f) = false := rfl
@[simp] lemma isCS_jack_in (t x : Nat) : isClassSpecific (jack_in t x) = true := rfl
@[simp] lemma isCS_jack_out (t x s : Nat) : isClassSpecific (jack_out t x s) = true := rfl
@[simp] lemma isCS_std_ep (a : Nat) : isClassSpecific (std_ep a) = false := rfl
@[simp] lemma isCS_class_ep (c f : Nat) : isClassSpecific (class_ep c f) = true := rfl
@[simp] lemma len_jack_in (t x : Nat) : (jack_in t x).length = 6 := rfl
@[simp] lemma len_jack_out (t x s : Nat) : (jack_out t x s).length = 9 := rfl
@[simp] lemma len_std_ep (a : Nat) : (std_ep a).length = 9 := rfl
@[simp] lemma len_class_ep (c f : Nat) : (class_ep c f).length = 5 := rfl

lemma sum_map_const {α : Type} (l : List α) (c : Nat) :
    (l.map (fun _ => c)).sum = l.length * c := by
  induction l with
  | nil => simp
  | cons a t ih => simp [ih, Nat.succ_mul]; ring

/-- midi_multi.py emits `12*num_in + 18*num_out` bytes of jack descriptors. -/
lemma multi_jackBytes (i o e : Nat) : jackBytes (ms_tail i o e) = 12 * i + 18 * o := by
  simp [jackBytes, ms_tail, List.filter_append, List.filter_map, Function.comp_def,
        List.map_map, sum_map_const]
  ring

/-- The class-specific bytes following the MS header in midi_multi.py:
jacks plus the two 5-byte class-specific endpoint descriptors. -/
lemma multi_csBytes (i o e : Nat) : csBytes (ms_tail i o e) = 12 * i + 18 * o + 10 := by
  simp [csBytes, ms_tail, List.filter_append, List.filter_map, Function.comp_def,
        List.map_map, sum_map_const]
  ring

/-- midi_multi.py allocates the jack ids 1, 2, …, 2·num_in + 2·num_out in
emission order — a running counter. -/
lemma multi_jackIds (i o e : Nat) :
    jackIds (ms_tail i o e) = (List.range (2 * i + 2 * o)).map (· + 1) := by
  simp [jackIds, ms_tail, List.filter_append, List.filter_map, Function.comp_def,
    List.map_map]
  rw [show 2 * i + 2 * o = i + (o + (o + i)) by ring, List.range_add, List.range_add,
    List.range_add]
  simp only [List.map_append, List.map_map, Function.comp_def, List.append_assoc]
  congr 1
  · exact List.map_congr_left (fun a _ => by simp [jack_in]; omega)
  congr 1
  · exact List.map_congr_left (fun a _ => by simp [jack_out]; omega)
  congr 1
  · exact List.map_congr_left (fun a _ => by simp [jack_out]; omega)
  · exact List.map_congr_left (fun a _ => by simp [jack_in]; omega)

@[simp] lemma embIn_jack_in_one (x : Nat) : isEmbInJack (jack_in 1 x) = true := rfl
@[simp] lemma embIn_jack_in_two (x : Nat) : isEmbInJack (jack_in 2 x) = false := rfl
@[simp] lemma embIn_jack_out (t x s : Nat) : isEmbInJack (jack_out t x s) = false := by
  simp [isEmbInJack, jack_out, descType]
@[simp] lemma embIn_std_ep (a : Nat) : isEmbInJack (std_ep a) = false := rfl
@[simp] lemma embIn_class_ep (c f : Nat) : isEmbInJack (class_ep c f) = false := rfl

@[simp] lemma extIn_jack_in_one (x : Nat) : isExtInJack (jack_in 1 x) = false := rfl
@[simp] lemma extIn_jack_in_two (x : Nat) : isExtInJack (jack_in 2 x) = true := rfl
@[simp] lemma extIn_jack_out (t x s : Nat) : isExtInJack (jack_out t x s) = false := by
  simp [isExtInJack, jack_out, descType]
@[simp] lemma extIn_std_ep (a : Nat) : isExtInJack (std_ep a) = false := rfl
@[simp] lemma extIn_class_ep (c f : Nat) : isExtInJack (class_ep c f) = false := rfl

@[simp] lemma embOut_jack_in (t x : Nat) : isEmbOutJack (jack_in t x) = false := by
  simp [isEmbOutJack, jack_in, descType]
@[simp] lemma embOut_jack_out_one (x s : Nat) : isEmbOutJack (jack_out 1 x s) = true := rfl
@[simp] lemma embOut_jack_out_two (x s : Nat) : isEmbOutJack (jack_out 2 x s) = false := rfl
@[simp] lemma embOut_std_ep (a : Nat) : isEmbOutJack (std_ep a) = false := rfl
@[simp] lemma embOut_class_ep (c f : Nat) : isEmbOutJack (class_ep c f) = false := rfl

@[simp] lemma extOut_jack_in (t x : Nat) : isExtOutJack (jack_in t x) = false := by
  simp [isExtOutJack, jack_in, descType]
@[simp] lemma extOut_jack_out_one (x s : Nat) : isExtOutJack (jack_out 1 x s) = false := rfl
@[simp] lemma extOut_jack_out_two (x s : Nat) : isExtOutJack (jack_out 2 x s) = true := rfl
@[simp] lemma extOut_std_ep (a : Nat) : isExtOutJack (std_ep a) = false := rfl
@[simp] lemma extOut_class_ep (c f : Nat) : isExtOutJack (class_ep c f) = false := rfl

/-- midi_multi.py emits one embedded IN jack per input cable. -/
lemma multi_count_embIn (i o e : Nat) :
    ((ms_tail i o e).filter isEmbInJack).length = i := by
  simp [ms_tail, List.filter_append, List.filter_map, Function.comp_def]

/-- midi_multi.py emits one external IN jack per *input* cable (the loop
runs over `range(num_in)`). -/
lemma multi_count_extIn (i o e : Nat) :
    ((ms_tail i o e).filter isExtInJack).length = i := by
  simp [ms_tail, List.filter_append, List.filter_map, Function.comp_def]

/-- midi_multi.py emits one embedded OUT jack per output cable. -/
lemma multi_count_embOut (i o e : Nat) :
    ((ms_tail i o e).filter isEmbOutJack).length = o := by
  simp [ms_tail, List.filter_append, List.filter_map, Function.comp_def]

/-- midi_multi.py emits one external OUT jack per *output* cable (the loop
runs over `range(num_out)`). -/
lemma multi_count_extOut (i o e : Nat) :
    ((ms_tail i o e).filter isExtOutJack).length = o := by
  simp [ms_tail, List.filter_append, List.filter_map, Function.comp_def]

/-- All jack ids emitted by midi_multi.py are distinct. -/
lemma multi_nodup (i o e : Nat) : (jackIds (ms_tail i o e)).Nodup := by
  rw [multi_jackIds]
  exact ((List.nodup_range _).map (add_left_injective 1))

lemma multi_bLengthOk (i o itf e : Nat) : bLengthOk (desc_cfg i o itf e) = true := by
  simp [bLengthOk, desc_cfg, ms_tail, ms_header, ac_header, std_ep, class_ep,
    Descriptor.interface, Descriptor.interface_assoc, List.all_append, List.all_map,
    Function.comp_def, jack_in, jack_out]

end MultiLemmas

section CableLemmas

open MidiMultiCable

/-- One jack-loop iteration of midi_multi_cable.py with `None` names:
emits the four-block jack set at the current running id, collects the
embedded IN id for `t < num_in` and the embedded OUT id for `t < num_out`,
advances the id counter by 4, and leaves the string table unchanged. -/
lemma cable_jack_set_none (i0 o0 J : Nat) (st : JackLoopState) (t : Nat) (ht : t < J) :
    jack_set i0 o0 (List.replicate J none) (List.replicate J none) st t =
    Except.ok ⟨st.blocks ++ cable_set_blocks st.jack_id, st.strs,
       (if t < i0 then st.in_emb_jack_ids ++ [st.jack_id] else st.in_emb_jack_ids),
       (if t < o0 then st.out_emb_jack_ids ++ [st.jack_id + 2] else st.out_emb_jack_ids),
       st.jack_id + 4⟩ := by
  simp [jack_set, ADD_EXTERNAL_JACKS, cable_set_blocks, List.get?_eq_getElem?,
    List.getElem?_replicate, ht, Except.pure, Bind.bind, Except.bind]

lemma cable_fold_blocks_succ (k : Nat) :
    cable_fold_blocks (k + 1) = cable_fold_blocks k ++ cable_set_blocks (1 + 4 * k) := by
  simp [cable_fold_blocks, List.range_succ]

/-- Closed form of the midi_multi_cable.py jack loop with `None` names:
after `k ≤ num_jack_sets` iterations the emitted blocks are `k` jack sets
with running ids, the collected embedded IN ids are `1, 5, …` (capped at
`num_in`), the embedded OUT ids are `3, 7, …` (capped at `num_out`). -/
lemma cable_fold_closed (i0 o0 J : Nat) (strs0 : List String) :
    ∀ k, k ≤ J →
    (List.range k).foldlM
        (jack_set i0 o0 (List.replicate J none) (List.replicate J none))
        (⟨[], strs0, [], [], 1⟩ : JackLoopState) =
    Except.ok ⟨cable_fold_blocks k, strs0,
      (List.range (min k i0)).map (fun t => 1 + 4 * t),
      (List.range (min k o0)).map (fun t => 3 + 4 * t),
      1 + 4 * k⟩ := by
  intro k
  induction k with
  | zero =>
    intro _
    simp [cable_fold_blocks, pure, Except.pure]
  | succ k ih =>
    intro hk
    rw [List.range_succ, List.foldlM_append, ih (by omega)]
    simp only [List.foldlM_cons, List.foldlM_nil]
    have hstep := cable_jack_set_none i0 o0 J
      ⟨cable_fold_blocks k, strs0,
        (List.range (min k i0)).map (fun t => 1 + 4 * t),
        (List.range (min k o0)).map (fun t => 3 + 4 * t),
        1 + 4 * k⟩ k (by omega)
    simp only [Bind.bind, Except.bind, hstep]
    have h1 : (if k < i0 then
        (List.range (min k i0)).map (fun t => 1 + 4 * t) ++ [1 + 4 * k]
        else (List.range (min k i0)).map (fun t => 1 + 4 * t))
        = (List.range (min (k + 1) i0)).map (fun t => 1 + 4 * t) := by
      by_cases h : k < i0
      · rw [if_pos h, show min (k + 1) i0 = k + 1 by omega, show min k i0 = k by omega,
          List.range_succ, List.map_append]
        simp
      · rw [if_neg h, show min (k + 1) i0 = min k i0 by omega]
    have h2 : (if k < o0 then
        (List.range (min k o0)).map (fun t => 3 + 4 * t) ++ [1 + 4 * k + 2]
        else (List.range (min k o0)).map (fun t => 3 + 4 * t))
        = (List.range (min (k + 1) o0)).map (fun t => 3 + 4 * t) := by
      by_cases h : k < o0
      · rw [if_pos h, show min (k + 1) o0 = k + 1 by omega, show min k o0 = k by omega,
          List.range_succ, List.map_append]
        simp
        omega
      · rw [if_neg h, show min (k + 1) o0 = min k o0 by omega]
    simp only [pure, Except.pure, Except.ok.injEq, JackLoopState.mk.injEq,
      cable_fold_blocks_succ]
    exact ⟨trivial, trivial, h1, h2, by omega⟩

end CableLemmas

end UsbMidi
namespace UsbMidi

section Derived

open MidiMultiCable

lemma jackBytes_append (l1 l2 : List (List Nat)) :
    jackBytes (l1 ++ l2) = jackBytes l1 + jackBytes l2 := by
  simp [jackBytes, List.filter_append]

lemma csBytes_append (l1 l2 : List (List Nat)) :
    csBytes (l1 ++ l2) = csBytes l1 + csBytes l2 := by
  simp [csBytes, List.filter_append]

@[simp] lemma jackBytes_set (j : Nat) : jackBytes (cable_set_blocks j) = 30 := rfl
@[simp] lemma csBytes_set (j : Nat) : csBytes (cable_set_blocks j) = 30 := rfl

lemma cable_fold_blocks_jackBytes (k : Nat) :
    jackBytes (cable_fold_blocks k) = 30 * k := by
  induction k with
  | zero => rfl
  | succ k ih => rw [cable_fold_blocks_succ, jackBytes_append, ih, jackBytes_set]; omega

lemma cable_fold_blocks_csBytes (k : Nat) :
    csBytes (cable_fold_blocks k) = 30 * k := by
  induction k with
  | zero => rfl
  | succ k ih => rw [cable_fold_blocks_succ, csBytes_append, ih, csBytes_set]; omega

/-- The midi_multi_cable.py MS tail with `None` names: `max(num_in,num_out)`
jack sets followed by the two endpoint pairs, whose class-specific endpoint
descriptors list the collected embedded jack ids. -/
lemma cable_ms_tail_none (i0 o0 e : Nat) (strs0 : List String) :
    ms_tail i0 o0 (List.replicate (max i0 o0) none)
        (List.replicate (max i0 o0) none) e strs0 =
    Except.ok (cable_fold_blocks (max i0 o0) ++
      [[7, 5, e, 2, 64, 0, 0],
       [4 + i0, 0x25, 1, i0] ++ (List.range i0).map (fun t => 1 + 4 * t),
       [7, 5, e ||| 0x80, 2, 64, 0, 0],
       [4 + o0, 0x25, 1, o0] ++ (List.range o0).map (fun t => 3 + 4 * t)],
      strs0) := by
  unfold ms_tail
  rw [cable_fold_closed i0 o0 (max i0 o0) strs0 (max i0 o0) (le_refl _),
    show min (max i0 o0) i0 = i0 by omega, show min (max i0 o0) o0 = o0 by omega]
  simp [Bind.bind, Except.bind, pure, Except.pure]

lemma cable_eps_jackBytes (i0 o0 e : Nat) :
    jackBytes [[7, 5, e, 2, 64, 0, 0],
      [4 + i0, 0x25, 1, i0] ++ (List.range i0).map (fun t => 1 + 4 * t),
      [7, 5, e ||| 0x80, 2, 64, 0, 0],
      [4 + o0, 0x25, 1, o0] ++ (List.range o0).map (fun t => 3 + 4 * t)] = 0 := by
  simp [jackBytes, isJack, descType]

/-- In midi_multi_cable.py the written wTotalLength is exactly 7 plus the
emitted jack bytes (the class-specific endpoint descriptors are excluded). -/
lemma cable_wTotal_eq (i0 o0 e : Nat) (strs0 : List String) :
    (ms_tail i0 o0 (List.replicate (max i0 o0) none)
        (List.replicate (max i0 o0) none) e strs0).map (fun p => 7 + jackBytes p.1) =
    Except.ok (wTotalLength i0 o0) := by
  rw [cable_ms_tail_none]
  simp only [Except.map]
  rw [jackBytes_append, cable_fold_blocks_jackBytes, cable_eps_jackBytes]
  simp [wTotalLength, ADD_EXTERNAL_JACKS]
  omega

end Derived

end UsbMidi
namespace UsbMidi

section StreamingLemmas

open MidiMultiStreaming

/-- In midi_multi_streaming.py each port interface's wTotalLength (22) is
exactly 7 plus the 15 emitted jack bytes, for every port and endpoint
configuration; the class-specific endpoint descriptors are excluded. -/
lemma stream_wTotal_eq (p : Nat) (ain aout : Bool) (iJ e : Nat) :
    wTotalLength = 7 + jackBytes (port_ms_tail p ain aout iJ e) := by
  cases ain <;> cases aout <;>
    simp [wTotalLength, ADD_EXTERNAL_JACKS, port_ms_tail, jackBytes, isJack, descType]

lemma stream_classEps (p : Nat) (ain aout : Bool) (iJ e : Nat) :
    ((port_ms_tail p ain aout iJ e).filter isClassEp).map
        (fun b => (b.length, b.getD 3 0)) =
      (if ain then [(5, 1)] else []) ++ (if aout then [(5, 1)] else []) := by
  cases ain <;> cases aout <;>
    simp [port_ms_tail, ADD_EXTERNAL_JACKS, isClassEp, descType]

lemma stream_stdEps (p : Nat) (ain aout : Bool) (iJ e : Nat) :
    ((port_ms_tail p ain aout iJ e).filter isStdEp).map List.length =
      (if ain then [7] else []) ++ (if aout then [7] else []) := by
  cases ain <;> cases aout <;>
    simp [port_ms_tail, ADD_EXTERNAL_JACKS, isStdEp, descType]

lemma stream_bLengthOk (p : Nat) (ain aout : Bool) (name : Option String)
    (ms e : Nat) (strs : List String) :
    bLengthOk (port_desc_cfg p ain aout name ms e strs).1 = true := by
  rcases name with _ | nm <;> cases ain <;> cases aout <;>
    simp [port_desc_cfg, port_ms_tail, ADD_EXTERNAL_JACKS, bLengthOk, ms_header,
      Descriptor.interface]

end StreamingLemmas

section PortFileLemmas

open MidiMultiPort

/-- usb_midi_multi_port.py allocates, per port `i`, the jack ids
`1+i, 1+P+i, 1+2P+i, 1+3P+i` (embedded IN, external IN, embedded OUT,
external OUT), interleaved per port. -/
lemma portfile_jackIds (P : Nat) :
    jackIds (ms_tail P) =
      (List.range P).flatMap
        (fun i => [1 + i, 1 + P + i, 1 + 2 * P + i, 1 + 3 * P + i]) := by
  simp [jackIds, ms_tail, List.filter_append, List.filter_flatMap, Function.comp_def,
    List.map_flatMap, jack_in_desc, jack_out_desc, audio_endpoint, midi_class_ep,
    isJack, descType]

/-- All jack ids of usb_midi_multi_port.py are distinct. -/
lemma portfile_nodup (P : Nat) : (jackIds (ms_tail P)).Nodup := by
  rw [portfile_jackIds, List.nodup_flatMap]
  constructor
  · intro t ht
    simp only [List.mem_range] at ht
    simp [List.Nodup]
    omega
  · rw [List.pairwise_iff_getElem]
    intro a b ha hb hab
    simp only [List.length_range] at ha hb
    simp only [List.getElem_range]
    intro v hv hv'
    simp only [List.mem_cons, List.not_mem_nil, or_false] at hv hv'
    omega

lemma portfile_count (P : Nat) : (jackIds (ms_tail P)).length = 4 * P := by
  rw [portfile_jackIds]
  simp [List.length_flatMap, Function.comp_def, sum_map_const]
  ring

end PortFileLemmas

end UsbMidi
namespace UsbMidi

section C3Helpers

open MidiMulti

@[simp] lemma isSE_jack_in (t x : Nat) : isStdEp (jack_in t x) = false := rfl
@[simp] lemma isSE_jack_out (t x s : Nat) : isStdEp (jack_out t x s) = false := rfl
@[simp] lemma isSE_std_ep (a : Nat) : isStdEp (std_ep a) = true := rfl
@[simp] lemma isSE_class_ep (c f : Nat) : isStdEp (class_ep c f) = false := rfl
@[simp] lemma isCE_jack_in (t x : Nat) : isClassEp (jack_in t x) = false := rfl
@[simp] lemma isCE_jack_out (t x s : Nat) : isClassEp (jack_out t x s) = false := rfl
@[simp] lemma isCE_std_ep (a : Nat) : isClassEp (std_ep a) = false := rfl
@[simp] lemma isCE_class_ep (c f : Nat) : isClassEp (class_ep c f) = true := rfl

/-- midi_multi.py's standard endpoint descriptors are 9 bytes each. -/
lemma multi_stdEps (i o e : Nat) :
    ((ms_tail i o e).filter isStdEp).map List.length = [9, 9] := by
  simp [ms_tail, List.filter_append, List.filter_map, Function.comp_def]

/-- midi_multi.py's class-specific endpoint descriptors are the two 5-byte
blocks, each listing a single jack id while declaring `num_in` / `num_out`
associated jacks. -/
lemma multi_classEps (i o e : Nat) :
    (ms_tail i o e).filter isClassEp = [class_ep i 1, class_ep o (1 + i)] := by
  simp [ms_tail, List.filter_append, List.filter_map, Function.comp_def]

/-- midi_multi.py jack blocks: OUT jacks are 9 bytes, IN jacks 6 bytes. -/
lemma multi_jackLens (i o e : Nat) :
    ((ms_tail i o e).filter isJack).all
      (fun b => b.length == if b.getD 2 0 == 3 then 9 else 6) = true := by
  simp [ms_tail, List.filter_append, List.filter_map, List.all_append, List.all_map,
    Function.comp_def, jack_in, jack_out, descType]
  refine ⟨?_, ?_, ?_, ?_⟩ <;> (intro x t ht hj h; subst h; rfl)

end C3Helpers

section C3CableHelpers

open MidiMultiCable

lemma bLengthOk_append (l1 l2 : List (List Nat)) :
    bLengthOk (l1 ++ l2) = (bLengthOk l1 && bLengthOk l2) := by
  simp [bLengthOk, List.all_append]

@[simp] lemma cable_set_filter_stdEp (j : Nat) :
    (cable_set_blocks j).filter isStdEp = [] := rfl
@[simp] lemma cable_set_filter_classEp (j : Nat) :
    (cable_set_blocks j).filter isClassEp = [] := rfl
@[simp] lemma cable_set_filter_isJack (j : Nat) :
    (cable_set_blocks j).filter isJack = cable_set_blocks j := rfl
@[simp] lemma cable_set_bLengthOk (j : Nat) : bLengthOk (cable_set_blocks j) = true := rfl
@[simp] lemma cable_set_jackLens (j : Nat) :
    (cable_set_blocks j).all
      (fun b => b.length == if b.getD 2 0 == 3 then 9 else 6) = true := rfl

lemma cable_fold_filter_stdEp (k : Nat) : (cable_fold_blocks k).filter isStdEp = [] := by
  induction k with
  | zero => rfl
  | succ k ih => rw [cable_fold_blocks_succ, List.filter_append, ih]; simp

lemma cable_fold_filter_classEp (k : Nat) :
    (cable_fold_blocks k).filter isClassEp = [] := by
  induction k with
  | zero => rfl
  | succ k ih => rw [cable_fold_blocks_succ, List.filter_append, ih]; simp

lemma cable_fold_filter_isJack (k : Nat) :
    (cable_fold_blocks k).filter isJack = cable_fold_blocks k := by
  induction k with
  | zero => rfl
  | succ k ih => rw [cable_fold_blocks_succ, List.filter_append, ih]; simp

lemma cable_fold_bLengthOk (k : Nat) : bLengthOk (cable_fold_blocks k) = true := by
  induction k with
  | zero => rfl
  | succ k ih => rw [cable_fold_blocks_succ, bLengthOk_append, ih]; simp

lemma cable_fold_jackLens (k : Nat) :
    (cable_fold_blocks k).all
      (fun b => b.length == if b.getD 2 0 == 3 then 9 else 6) = true := by
  induction k with
  | zero => rfl
  | succ k ih =>
    rw [cable_fold_blocks_succ, List.all_append, ih]
    simp only [Bool.true_and, List.all_eq_true]
    intro x hx
    simp only [cable_set_blocks, List.mem_cons, List.not_mem_nil, or_false] at hx
    rcases hx with rfl | rfl | rfl | rfl <;> rfl

/-- Closed form of the full midi_multi_cable.py `desc_cfg` with `None`
names. -/
lemma cable_desc_cfg_none (i0 o0 itf e : Nat) (strs0 : List String) :
    desc_cfg i0 o0 (List.replicate (max i0 o0) none)
        (List.replicate (max i0 o0) none) itf e strs0 =
    Except.ok
      ([Descriptor.interface itf 0 1 1 0 0,
        [9, 0x24, 1, 0x00, 0x01, 9, 0, 1, itf + 1],
        Descriptor.interface (itf + 1) 2 1 3 0 0,
        ms_header (wTotalLength i0 o0)] ++
       (cable_fold_blocks (max i0 o0) ++
        [[7, 5, e, 2, 64, 0, 0],
         [4 + i0, 0x25, 1, i0] ++ (List.range i0).map (fun t => 1 + 4 * t),
         [7, 5, e ||| 0x80, 2, 64, 0, 0],
         [4 + o0, 0x25, 1, o0] ++ (List.range o0).map (fun t => 3 + 4 * t)]),
       strs0) := by
  unfold desc_cfg
  rw [cable_ms_tail_none]
  simp [Bind.bind, Except.bind, pure, Except.pure]

end C3CableHelpers

end UsbMidi
namespace UsbMidi

/-- Bundled descriptor-category report for the midi_multi_cable.py
configuration descriptor with `None` names: every bLength is correct, the
standard endpoints are 7 bytes, the class-specific endpoints are `4+n`
bytes declaring and listing `n = num_in` / `num_out` jack ids, and jacks
are 9 bytes (OUT) / 6 bytes (IN). -/
lemma cable_desc_report (i o itf e : Nat) (strs0 : List String) :
    (MidiMultiCable.desc_cfg i o (List.replicate (max i o) none)
        (List.replicate (max i o) none) itf e strs0).map
      (fun q => (bLengthOk q.1, (q.1.filter isStdEp).map List.length,
        (q.1.filter isClassEp).map (fun b => (b.length, b.getD 3 0)),
        (q.1.filter isJack).all
          (fun b => b.length == if b.getD 2 0 == 3 then 9 else 6)))
      = Except.ok (true, [7, 7], [(4 + i, i), (4 + o, o)], true) := by
  rw [cable_desc_cfg_none]
  simp only [Except.map, List.filter_append, bLengthOk_append, List.map_append,
    List.all_append, cable_fold_filter_stdEp, cable_fold_filter_classEp,
    cable_fold_filter_isJack, cable_fold_bLengthOk, cable_fold_jackLens]
  simp [bLengthOk, isStdEp, isClassEp, isJack, descType, Descriptor.interface,
    ms_header, List.cons_append, cable_fold_jackLens]
  omega

end UsbMidi

namespace UsbMidi

/-- C1 counterexample: in midi_multi.py with num_in = num_out = 1 (shared
endpoint 1), the class-specific MIDIStreaming header's wTotalLength is 37,
but the class-specific descriptors that follow it in the MIDIStreaming
interface (four jack descriptors and two class-specific endpoint
descriptors) total 40 bytes, so the claimed equality fails. -/
theorem c1_wTotalLength_counterexample :
    MidiMulti.total_class_specific_len 1 1 = 37 ∧
    csBytes (MidiMulti.ms_tail 1 1 1) = 40 ∧
    ¬ MidiMulti.total_class_specific_len 1 1 = csBytes (MidiMulti.ms_tail 1 1 1) := by
  decide

/-- C1 (amended): in every builder the written wTotalLength equals 7 (the
header's own length) plus a jack-descriptor byte total, so it includes the
header itself and excludes the class-specific endpoint descriptors that
follow.  In midi_multi_cable.py (with `None` port names) and in every
midi_multi_streaming.py port interface it is exactly 7 plus the emitted
jack bytes; in midi_multi.py the accounted jack bytes swap the external
IN/OUT descriptor sizes, so there the value equals 7 plus the emitted jack
bytes exactly when num_in = num_out. -/
theorem c1_wTotalLength_amended (i o p : Nat) (ain aout : Bool)
    (e iJ : Nat) (strs0 : List String) :
    (MidiMulti.total_class_specific_len i o
        = 7 + jackBytes (MidiMulti.ms_tail i o e) ↔ i = o) ∧
    ((MidiMultiCable.ms_tail i o (List.replicate (max i o) none)
        (List.replicate (max i o) none) e strs0).map (fun q => 7 + jackBytes q.1)
      = Except.ok (MidiMultiCable.wTotalLength i o)) ∧
    (MidiMultiStreaming.wTotalLength
        = 7 + jackBytes (MidiMultiStreaming.port_ms_tail p ain aout iJ e)) := by
  refine ⟨?_, cable_wTotal_eq i o e strs0, stream_wTotal_eq p ain aout iJ e⟩
  rw [multi_jackBytes]
  unfold MidiMulti.total_class_specific_len
  omega

/-- C2 counterexample: in midi_multi.py with num_in = 1, num_out = 2 the
builder emits two external OUT jacks (one per *output* cable) and one
external IN jack (one per *input* cable), contradicting the claimed "one
external OUT jack per input cable, one external IN jack per output
cable". -/
theorem c2_jack_order_counterexample :
    ((MidiMulti.ms_tail 1 2 1).filter isExtOutJack).length = 2 ∧
    ((MidiMulti.ms_tail 1 2 1).filter isExtInJack).length = 1 ∧
    ¬ ((MidiMulti.ms_tail 1 2 1).filter isExtOutJack).length = 1 ∧
    ¬ ((MidiMulti.ms_tail 1 2 1).filter isExtInJack).length = 2 := by
  refine ⟨by decide, by decide, by decide, by decide⟩

/-- C2 (amended): midi_multi.py allocates jack ids with a running counter
in the order embedded IN jacks (one per input cable, ids 1..num_in),
embedded OUT jacks (one per output cable), then external OUT jacks one per
*output* cable and external IN jacks one per *input* cable (the mirroring
directions are swapped relative to the claim); the ids are consecutive
1..2·num_in+2·num_out, hence all distinct.  usb_midi_multi_port.py instead
interleaves per port (embedded IN, external IN, embedded OUT, external OUT
with stride num_ports), also yielding 4·num_ports distinct ids. -/
theorem c2_jack_order_amended (i o e P : Nat) :
    jackIds (MidiMulti.ms_tail i o e) = (List.range (2*i + 2*o)).map (· + 1) ∧
    (jackIds (MidiMulti.ms_tail i o e)).Nodup ∧
    ((MidiMulti.ms_tail i o e).filter isEmbInJack).length = i ∧
    ((MidiMulti.ms_tail i o e).filter isEmbOutJack).length = o ∧
    ((MidiMulti.ms_tail i o e).filter isExtOutJack).length = o ∧
    ((MidiMulti.ms_tail i o e).filter isExtInJack).length = i ∧
    jackIds (MidiMultiPort.ms_tail P)
      = (List.range P).flatMap (fun t => [1 + t, 1 + P + t, 1 + 2*P + t, 1 + 3*P + t]) ∧
    (jackIds (MidiMultiPort.ms_tail P)).Nodup ∧
    (jackIds (MidiMultiPort.ms_tail P)).length = 4 * P :=
  ⟨multi_jackIds i o e, multi_nodup i o e, multi_count_embIn i o e,
   multi_count_embOut i o e, multi_count_extOut i o e, multi_count_extIn i o e,
   portfile_jackIds P, portfile_nodup P, portfile_count P⟩

/-- C3 counterexample: the class-specific endpoint descriptors emitted by a
midi_multi_streaming.py port interface are 5-byte blocks listing exactly
one associated jack id, so their bLength is 4+n = 5, not the claimed
5+n = 6. -/
theorem c3_bLength_counterexample :
    (MidiMultiStreaming.port_ms_tail 0 true true 0 1).filter isClassEp
      = [[5, 0x25, 1, 1, 1], [5, 0x25, 1, 1, 2]] ∧
    ¬ ([5, 0x25, 1, 1, 1] : List Nat).length = 5 + 1 := by
  decide

/-- C3 (amended): every descriptor block emitted by the cited `desc_cfg`
builders carries a bLength equal to its actual byte count.  The
AudioControl class header is 9 bytes and the MIDIStreaming class header 7
bytes (as claimed); IN jacks are 6 bytes and OUT jacks 9 bytes (as
claimed); standard endpoint descriptors are 9 bytes in midi_multi.py but 7
bytes in midi_multi_cable.py and midi_multi_streaming.py; class-specific
endpoint descriptors are 4+n bytes where n is the number of associated
jack ids actually listed — midi_multi_cable.py lists n = num_in / num_out
ids, while midi_multi.py and midi_multi_streaming.py emit 5-byte blocks
listing a single id (midi_multi.py declares num_in / num_out associated
jacks but MicroPython's pack truncates the surplus ids). -/
theorem c3_bLength_amended (i o itf e p ms : Nat) (ain aout : Bool)
    (name : Option String) (strs0 strs1 : List String) :
    bLengthOk (MidiMulti.desc_cfg i o itf e) = true ∧
    (MidiMulti.ac_header itf).length = 9 ∧
    (ms_header (MidiMulti.total_class_specific_len i o)).length = 7 ∧
    ((MidiMulti.ms_tail i o e).filter isJack).all
      (fun b => b.length == if b.getD 2 0 == 3 then 9 else 6) = true ∧
    ((MidiMulti.ms_tail i o e).filter isStdEp).map List.length = [9, 9] ∧
    (MidiMulti.ms_tail i o e).filter isClassEp
      = [MidiMulti.class_ep i 1, MidiMulti.class_ep o (1 + i)] ∧
    (MidiMulti.class_ep i 1).length = 5 ∧
    ((MidiMultiCable.desc_cfg i o (List.replicate (max i o) none)
        (List.replicate (max i o) none) itf e strs0).map
      (fun q => (bLengthOk q.1, (q.1.filter isStdEp).map List.length,
        (q.1.filter isClassEp).map (fun b => (b.length, b.getD 3 0)),
        (q.1.filter isJack).all
          (fun b => b.length == if b.getD 2 0 == 3 then 9 else 6)))
      = Except.ok (true, [7, 7], [(4 + i, i), (4 + o, o)], true)) ∧
    bLengthOk (MidiMultiStreaming.port_desc_cfg p ain aout name ms e strs1).1 = true ∧
    ((MidiMultiStreaming.port_ms_tail p ain aout 0 e).filter isStdEp).map List.length
      = ((if ain then [7] else []) ++ (if aout then [7] else [])) ∧
    ((MidiMultiStreaming.port_ms_tail p ain aout 0 e).filter isClassEp).map
        (fun b => (b.length, b.getD 3 0))
      = ((if ain then [(5, 1)] else []) ++ (if aout then [(5, 1)] else [])) :=
  ⟨multi_bLengthOk i o itf e, rfl, rfl, multi_jackLens i o e, multi_stdEps i o e,
   multi_classEps i o e, rfl, cable_desc_report i o itf e strs0,
   stream_bLengthOk p ain aout name ms e strs1, stream_stdEps p ain aout 0 e,
   stream_classEps p ain aout 0 e⟩

end UsbMidi
namespace UsbMidi

/-- Setting bits can only increase a natural number: `a ≤ a ||| b`. -/
lemma nat_le_or_left (a : Nat) : ∀ b, a ≤ a ||| b := by
  induction a using Nat.strong_induction_on with
  | _ a ih =>
    intro b
    match a with
    | 0 => exact Nat.zero_le _
    | a + 1 =>
      have h2 : (a + 1) / 2 ≤ (a + 1) / 2 ||| b / 2 := ih ((a + 1) / 2) (by omega) (b / 2)
      have hdiv : ((a + 1) ||| b) / 2 = (a + 1) / 2 ||| b / 2 := Nat.or_div_two
      have hmod : (a + 1) % 2 ≤ ((a + 1) ||| b) % 2 := by
        rcases Nat.mod_two_eq_zero_or_one (a + 1) with h | h
        · simp [h]
        · have h1 : ((a + 1) ||| b) % 2 = 1 := Nat.or_mod_two_eq_one.mpr (Or.inl h)
          omega
      omega

/-- A packed header byte `(cable <<< 4) ||| cin` fits one byte when cable
and CIN are 4-bit values. -/
lemma packed_byte_le (c d : Nat) (h : c ≤ 15) (hd : d ≤ 255) :
    (c <<< 4) ||| d ≤ 255 := by
  have h1 : c <<< 4 < 2 ^ 8 := by simp [Nat.shiftLeft_eq]; omega
  have h2 := Nat.or_lt_two_pow h1 (show d < 2 ^ 8 by omega)
  omega

/-- `_tx_xfer` never touches the buffers, only the pending flag. -/
lemma tx_xfer_buffers (s : MidiState) :
    (MidiMulti.tx_xfer s).1.tx_buffer = s.tx_buffer ∧
    (MidiMulti.tx_xfer s).1.rx_buffer = s.rx_buffer ∧
    (MidiMulti.tx_xfer s).1.opened = s.opened := by
  unfold MidiMulti.tx_xfer
  split <;> exact ⟨rfl, rfl, rfl⟩

/-- `_rx_xfer` never touches the buffers, only the pending flag. -/
lemma rx_xfer_buffers (s : MidiState) :
    (MidiMulti.rx_xfer s).1.tx_buffer = s.tx_buffer ∧
    (MidiMulti.rx_xfer s).1.rx_buffer = s.rx_buffer ∧
    (MidiMulti.rx_xfer s).1.opened = s.opened := by
  unfold MidiMulti.rx_xfer
  split <;> exact ⟨rfl, rfl, rfl⟩

/-- Unfolding `send_event` in the success case: enough free space and all
four packet bytes in range. -/
lemma send_event_success (s : MidiState) (cable cin m0 m1 m2 : Nat)
    (hfree : 4 ≤ s.tx_buffer.writableLen)
    (hb0 : (cable <<< 4) ||| cin ≤ 255)
    (hm0 : m0 ≤ 255) (hm1 : m1 ≤ 255) (hm2 : m2 ≤ 255) :
    MidiMulti.send_event s cable cin m0 m1 m2 =
      Except.ok
        ((MidiMulti.tx_xfer
            { s with tx_buffer := s.tx_buffer.finish_write [(cable <<< 4) ||| cin, m0, m1, m2] }).1,
         true,
         (MidiMulti.tx_xfer
            { s with tx_buffer := s.tx_buffer.finish_write [(cable <<< 4) ||| cin, m0, m1, m2] }).2) := by
  unfold MidiMulti.send_event
  rw [if_neg (by omega), if_neg (by omega), if_neg (by omega), if_neg (by omega),
    if_neg (by omega)]

end UsbMidi

namespace UsbMidi

/-- C4: for every inbound buffer content of length 4k+r (0 ≤ r < 4) whose
groups all have registered handlers, one `_on_rx` run dispatches exactly k
packets — one per consecutive 4-byte group, in buffer order — and consumes
exactly 4k bytes, leaving the trailing r bytes in the buffer for the next
receive completion; midi_multi_cable.py's identical `_on_rx` behaves the
same. -/
theorem c4_partial_group_decode (cbs : List (Option MidiMulti.Handler)) (s : MidiState)
    (h : ∀ g ∈ groups4 s.rx_buffer.data,
        MidiMulti.registered cbs (g.1 >>> 4) = true) :
    (MidiMulti.on_rx cbs s).2.length = s.rx_buffer.data.length / 4 ∧
    (MidiMulti.on_rx cbs s).2
      = (groups4 s.rx_buffer.data).map
          (fun g => ⟨g.1 >>> 4, g.1 &&& 0x0F, g.2.1, g.2.2.1, g.2.2.2⟩) ∧
    (MidiMulti.on_rx cbs s).1.rx_buffer.data
      = s.rx_buffer.data.drop (4 * (s.rx_buffer.data.length / 4)) ∧
    (MidiMulti.on_rx cbs s).1.rx_buffer.data.length = s.rx_buffer.data.length % 4 ∧
    MidiMultiCable.on_rx cbs s = MidiMulti.on_rx cbs s := by
  have hl := on_rx_loop_eq cbs s.rx_buffer.data
  have hfil : (groups4 s.rx_buffer.data).filter
      (fun g => MidiMulti.registered cbs (g.1 >>> 4)) = groups4 s.rx_buffer.data :=
    List.filter_eq_self.mpr h
  refine ⟨?_, ?_, ?_, ?_, rfl⟩
  · simp only [MidiMulti.on_rx, Buffer.pend_read, hl, flatMap_dispatch, hfil,
      List.length_map, groups4_length]
  · simp only [MidiMulti.on_rx, Buffer.pend_read, hl, flatMap_dispatch, hfil]
  · simp only [MidiMulti.on_rx, Buffer.pend_read, Buffer.finish_read, hl]
  · simp only [MidiMulti.on_rx, Buffer.pend_read, Buffer.finish_read, hl,
      List.length_drop]
    omega

/-- C4 witness: a registered handler on cable 0, buffer of 6 bytes: one
packet dispatched, 4 bytes consumed, 2 left. -/
theorem c4_partial_group_decode_witness :
    (MidiMulti.on_rx [some (fun _ _ _ _ => true)]
      ⟨true, false, false, ⟨64, []⟩, ⟨64, [0x09, 0x90, 60, 100, 0xAA, 0xBB]⟩⟩).2.length = 1 ∧
    (MidiMulti.on_rx [some (fun _ _ _ _ => true)]
      ⟨true, false, false, ⟨64, []⟩, ⟨64, [0x09, 0x90, 60, 100, 0xAA, 0xBB]⟩⟩).1.rx_buffer.data
      = [0xAA, 0xBB] := by
  have h := c4_partial_group_decode [some (fun _ _ _ _ => true)]
      ⟨true, false, false, ⟨64, []⟩, ⟨64, [0x09, 0x90, 60, 100, 0xAA, 0xBB]⟩⟩ (by decide)
  exact ⟨h.1.trans (by decide), h.2.2.1.trans (by decide)⟩

/-- C9: during decode, a packet whose cable has no registered handler is
silently dropped while the rest of the buffer is still processed: the
invocations are exactly the registered groups, in order, and the cursor
advance (4·⌊n/4⌋ bytes consumed) does not depend on registration at all;
moreover the whole decode result depends only on *which* cables are
registered, not on what the handlers do — a raising handler (modelled by a
`false`-returning handler, swallowed by the bare `try/except`) changes
nothing. -/
theorem c9_dispatch_isolation (cbs cbs' : List (Option MidiMulti.Handler))
    (s : MidiState) (hpat : cbs.map Option.isSome = cbs'.map Option.isSome) :
    (MidiMulti.on_rx cbs s).1.rx_buffer.data
      = s.rx_buffer.data.drop (4 * (s.rx_buffer.data.length / 4)) ∧
    (MidiMulti.on_rx cbs s).2
      = ((groups4 s.rx_buffer.data).filter
          (fun g => MidiMulti.registered cbs (g.1 >>> 4))).map
          (fun g => ⟨g.1 >>> 4, g.1 &&& 0x0F, g.2.1, g.2.2.1, g.2.2.2⟩) ∧
    MidiMulti.on_rx cbs' s = MidiMulti.on_rx cbs s := by
  have hl := on_rx_loop_eq cbs s.rx_buffer.data
  have hl' := on_rx_loop_eq cbs' s.rx_buffer.data
  refine ⟨?_, ?_, ?_⟩
  · simp only [MidiMulti.on_rx, Buffer.pend_read, Buffer.finish_read, hl]
  · simp only [MidiMulti.on_rx, Buffer.pend_read, hl, flatMap_dispatch]
  · have hreg : ∀ g ∈ groups4 s.rx_buffer.data,
        MidiMulti.registered cbs' (g.1 >>> 4) = MidiMulti.registered cbs (g.1 >>> 4) :=
      fun g _ => (registered_pattern cbs cbs' hpat (g.1 >>> 4)).symm
    simp only [MidiMulti.on_rx, Buffer.pend_read, Buffer.finish_read, hl, hl',
      flatMap_dispatch]
    rw [List.filter_congr hreg]

/-- C9 witness: cable 1 unregistered (entry `none`) and the cable-0 handler
raising: the raising handler changes nothing relative to a normal one and
the unregistered packet is dropped while the buffer is still fully
consumed. -/
theorem c9_dispatch_isolation_witness :
    (MidiMulti.on_rx [some (fun _ _ _ _ => false), none]
      ⟨true, false, false, ⟨64, []⟩, ⟨64, [0x19, 0x90, 60, 100, 0x08, 0x80, 61, 0]⟩⟩).1.rx_buffer.data
      = [] ∧
    (MidiMulti.on_rx [some (fun _ _ _ _ => false), none]
      ⟨true, false, false, ⟨64, []⟩, ⟨64, [0x19, 0x90, 60, 100, 0x08, 0x80, 61, 0]⟩⟩).2
      = [⟨0, 8, 0x80, 61, 0⟩] ∧
    MidiMulti.on_rx [some (fun _ _ _ _ => false), none]
      ⟨true, false, false, ⟨64, []⟩, ⟨64, [0x19, 0x90, 60, 100, 0x08, 0x80, 61, 0]⟩⟩
      = MidiMulti.on_rx [some (fun _ _ _ _ => true), none]
      ⟨true, false, false, ⟨64, []⟩, ⟨64, [0x19, 0x90, 60, 100, 0x08, 0x80, 61, 0]⟩⟩ := by
  have h := c9_dispatch_isolation [some (fun _ _ _ _ => true), none]
      [some (fun _ _ _ _ => false), none]
      ⟨true, false, false, ⟨64, []⟩, ⟨64, [0x19, 0x90, 60, 100, 0x08, 0x80, 61, 0]⟩⟩
      (by decide)
  have h' := c9_dispatch_isolation [some (fun _ _ _ _ => false), none]
      [some (fun _ _ _ _ => true), none]
      ⟨true, false, false, ⟨64, []⟩, ⟨64, [0x19, 0x90, 60, 100, 0x08, 0x80, 61, 0]⟩⟩
      (by decide)
  exact ⟨h'.1.trans (by decide), h'.2.1.trans (by decide), h.2.2⟩

end UsbMidi

namespace UsbMidi

/-- C5 counterexample: `send_event` with cable 0 and CIN 16 is *not*
rejected — the packet is queued (4 bytes, byte0 = 0x10, aliasing cable 1 /
CIN 0) and the call returns `True`. -/
theorem c5_boundary_counterexample :
    MidiMulti.send_event ⟨false, false, false, ⟨64, []⟩, ⟨64, []⟩⟩ 0 16 0 0 0
      = Except.ok (⟨false, false, false, ⟨64, [16, 0, 0, 0]⟩, ⟨64, []⟩⟩, true, 0) ∧
    (⟨64, [16, 0, 0, 0]⟩ : Buffer).data.length = 4 := by
  decide

/-- C5 (amended): cable 15 with CIN 15 packs byte0 = 0xFF; a call with
cable = 16 never queues anything — either the buffer is full (`False`
result, state unchanged) or the byte assignment raises `ValueError`; but a
call with CIN = 16 and cable ≤ 15 is *not* rejected: the CIN's bit 4
overlaps the cable field, so the packet is queued with
byte0 = (cable <<< 4) ||| 16. -/
theorem c5_boundary_amended (s : MidiState) (m0 m1 m2 cable : Nat)
    (hc : cable ≤ 15) (hm0 : m0 ≤ 255) (hm1 : m1 ≤ 255) (hm2 : m2 ≤ 255)
    (hfree : 4 ≤ s.tx_buffer.writableLen) :
    (MidiMulti.send_event s 15 15 m0 m1 m2 =
      Except.ok
        ((MidiMulti.tx_xfer
            { s with tx_buffer := s.tx_buffer.finish_write [0xFF, m0, m1, m2] }).1,
         true,
         (MidiMulti.tx_xfer
            { s with tx_buffer := s.tx_buffer.finish_write [0xFF, m0, m1, m2] }).2)) ∧
    (∀ (t : MidiState) (c' d0 d1 d2 : Nat),
      MidiMulti.send_event t 16 c' d0 d1 d2 = Except.error "ValueError" ∨
      MidiMulti.send_event t 16 c' d0 d1 d2 = Except.ok (t, false, 0)) ∧
    (MidiMulti.send_event s cable 16 m0 m1 m2 =
      Except.ok
        ((MidiMulti.tx_xfer
            { s with tx_buffer := s.tx_buffer.finish_write [(cable <<< 4) ||| 16, m0, m1, m2] }).1,
         true,
         (MidiMulti.tx_xfer
            { s with tx_buffer := s.tx_buffer.finish_write [(cable <<< 4) ||| 16, m0, m1, m2] }).2)) := by
  refine ⟨?_, ?_, ?_⟩
  · have h := send_event_success s 15 15 m0 m1 m2 hfree (by decide) hm0 hm1 hm2
    simpa using h
  · intro t c' d0 d1 d2
    by_cases hf : t.tx_buffer.writableLen < 4
    · right
      unfold MidiMulti.send_event
      rw [if_pos hf]
    · left
      have hover : 255 < (16 <<< 4) ||| c' := by
        have h := nat_le_or_left (16 <<< 4) c'
        have e : (16 : Nat) <<< 4 = 256 := by decide
        rw [e] at h ⊢
        omega
      unfold MidiMulti.send_event
      rw [if_neg hf, if_pos hover]
  · exact send_event_success s cable 16 m0 m1 m2 hfree
      (packed_byte_le cable 16 hc (by omega)) hm0 hm1 hm2

/-- C5 witness: at a concrete open state with an empty 64-byte TX buffer,
cable 15 / CIN 15 queues byte0 = 0xFF, cable 16 is rejected with
`ValueError`, and cable 0 / CIN 16 queues byte0 = 0x10. -/
theorem c5_boundary_amended_witness :
    (MidiMulti.send_event ⟨false, false, false, ⟨64, []⟩, ⟨64, []⟩⟩ 15 15 1 2 3 =
      Except.ok (⟨false, false, false, ⟨64, [0xFF, 1, 2, 3]⟩, ⟨64, []⟩⟩, true, 0)) ∧
    (MidiMulti.send_event ⟨false, false, false, ⟨64, []⟩, ⟨64, []⟩⟩ 16 0 0 0 0
      = Except.error "ValueError" ∨
     MidiMulti.send_event ⟨false, false, false, ⟨64, []⟩, ⟨64, []⟩⟩ 16 0 0 0 0
      = Except.ok (⟨false, false, false, ⟨64, []⟩, ⟨64, []⟩⟩, false, 0)) := by
  have h := c5_boundary_amended ⟨false, false, false, ⟨64, []⟩, ⟨64, []⟩⟩ 1 2 3 0
    (by decide) (by decide) (by decide) (by decide) (by decide)
  exact ⟨h.1.trans (by decide), h.2.1 ⟨false, false, false, ⟨64, []⟩, ⟨64, []⟩⟩ 0 0 0 0⟩

/-- C6: for every outbound ring-buffer state, if fewer than 4 writable
bytes remain `send_event` returns `False` as a value (no exception) with
the state unchanged and no submit; otherwise (for in-range packet bytes) it
appends exactly the four packet bytes, returns `True`, and the queue stays
within the fixed capacity — the model is a total function, so there is no
blocking. -/
theorem c6_backpressure (s : MidiState) (cable cin m0 m1 m2 : Nat)
    (hc : cable ≤ 15) (hcin : cin ≤ 255) (hm0 : m0 ≤ 255) (hm1 : m1 ≤ 255)
    (hm2 : m2 ≤ 255) :
    (s.tx_buffer.writableLen < 4 →
      MidiMulti.send_event s cable cin m0 m1 m2 = Except.ok (s, false, 0)) ∧
    (4 ≤ s.tx_buffer.writableLen →
      MidiMulti.send_event s cable cin m0 m1 m2 =
        Except.ok
          ((MidiMulti.tx_xfer
              { s with tx_buffer := s.tx_buffer.finish_write [(cable <<< 4) ||| cin, m0, m1, m2] }).1,
           true,
           (MidiMulti.tx_xfer
              { s with tx_buffer := s.tx_buffer.finish_write [(cable <<< 4) ||| cin, m0, m1, m2] }).2) ∧
      (MidiMulti.send_event s cable cin m0 m1 m2).map
          (fun r => r.1.tx_buffer.data)
        = Except.ok (s.tx_buffer.data ++ [(cable <<< 4) ||| cin, m0, m1, m2]) ∧
      (MidiMulti.send_event s cable cin m0 m1 m2).map
          (fun r => decide (r.1.tx_buffer.data.length ≤ r.1.tx_buffer.cap))
        = Except.ok true) := by
  constructor
  · intro hfull
    unfold MidiMulti.send_event
    rw [if_pos hfull]
  · intro hfree
    have hb0 : (cable <<< 4) ||| cin ≤ 255 := packed_byte_le cable cin hc hcin
    have hs := send_event_success s cable cin m0 m1 m2 hfree hb0 hm0 hm1 hm2
    refine ⟨hs, ?_, ?_⟩
    · rw [hs]
      simp only [Except.map, (tx_xfer_buffers _).1, Buffer.finish_write]
    · rw [hs]
      simp only [Except.map, (tx_xfer_buffers _).1, Buffer.finish_write]
      have hlen : s.tx_buffer.data.length + 4 ≤ s.tx_buffer.cap := by
        have := hfree
        unfold Buffer.writableLen at this
        omega
      simp
      omega

/-- C6 witness: with 2 writable bytes left the send fails as a value and
changes nothing; with a fresh buffer it queues the four bytes. -/
theorem c6_backpressure_witness :
    (MidiMulti.send_event ⟨false, false, false, ⟨6, [1, 2, 3, 4]⟩, ⟨64, []⟩⟩ 1 9 0x90 60 100
      = Except.ok (⟨false, false, false, ⟨6, [1, 2, 3, 4]⟩, ⟨64, []⟩⟩, false, 0)) ∧
    (MidiMulti.send_event ⟨false, false, false, ⟨64, []⟩, ⟨64, []⟩⟩ 1 9 0x90 60 100).map
        (fun r => r.1.tx_buffer.data)
      = Except.ok [0x19, 0x90, 60, 100] := by
  have h1 := c6_backpressure ⟨false, false, false, ⟨6, [1, 2, 3, 4]⟩, ⟨64, []⟩⟩ 1 9 0x90 60 100
    (by decide) (by decide) (by decide) (by decide) (by decide)
  have h2 := c6_backpressure ⟨false, false, false, ⟨64, []⟩, ⟨64, []⟩⟩ 1 9 0x90 60 100
    (by decide) (by decide) (by decide) (by decide) (by decide)
  exact ⟨h1.1 (by decide), ((h2.2 (by decide)).2.1).trans (by decide)⟩

end UsbMidi

namespace UsbMidi

/-- C7: per endpoint direction at most one transfer is in flight.  A re-arm
attempt while a transfer is pending is a no-op (state unchanged, no
submit); two consecutive re-arm calls with no intervening completion issue
at most one submit in total, and exactly one when the first call's
conditions hold (device open, nothing pending, data to send / space to
receive). -/
theorem c7_single_transfer_in_flight (s : MidiState) :
    (s.txPending = true → MidiMulti.tx_xfer s = (s, 0)) ∧
    (s.rxPending = true → MidiMulti.rx_xfer s = (s, 0)) ∧
    (MidiMulti.tx_xfer s).2 + (MidiMulti.tx_xfer (MidiMulti.tx_xfer s).1).2 ≤ 1 ∧
    (MidiMulti.rx_xfer s).2 + (MidiMulti.rx_xfer (MidiMulti.rx_xfer s).1).2 ≤ 1 ∧
    (s.opened = true → s.txPending = false → s.tx_buffer.data ≠ [] →
      (MidiMulti.tx_xfer s).2 = 1 ∧ (MidiMulti.tx_xfer (MidiMulti.tx_xfer s).1).2 = 0) ∧
    (s.opened = true → s.rxPending = false →
      s.rx_buffer.data.length < s.rx_buffer.cap →
      (MidiMulti.rx_xfer s).2 = 1 ∧ (MidiMulti.rx_xfer (MidiMulti.rx_xfer s).1).2 = 0) := by
  refine ⟨?_, ?_, ?_, ?_, ?_, ?_⟩
  · intro hp
    unfold MidiMulti.tx_xfer
    rw [if_neg (by simp [hp])]
  · intro hp
    unfold MidiMulti.rx_xfer
    rw [if_neg (by simp [hp])]
  · unfold MidiMulti.tx_xfer
    split
    · rw [if_neg (by simp)]
      simp
    · simp
  · unfold MidiMulti.rx_xfer
    split
    · rw [if_neg (by simp)]
      simp
    · simp
  · intro ho hp hd
    unfold MidiMulti.tx_xfer
    rw [if_pos (by simp [ho, hp, Buffer.readableLen, hd])]
    simp
  · intro ho hp hd
    unfold MidiMulti.rx_xfer
    rw [if_pos (by simp [ho, hp, Buffer.writableLen]; omega)]
    simp

/-- C7 witness: an open idle state with one queued TX packet and RX space:
each direction submits exactly once across two re-arm calls, and a pending
direction is a no-op. -/
theorem c7_single_transfer_in_flight_witness :
    ((MidiMulti.tx_xfer ⟨true, false, false, ⟨64, [25, 144, 60, 100]⟩, ⟨64, []⟩⟩).2 = 1 ∧
     (MidiMulti.tx_xfer (MidiMulti.tx_xfer
        ⟨true, false, false, ⟨64, [25, 144, 60, 100]⟩, ⟨64, []⟩⟩).1).2 = 0) ∧
    MidiMulti.tx_xfer ⟨true, true, false, ⟨64, [25, 144, 60, 100]⟩, ⟨64, []⟩⟩
      = (⟨true, true, false, ⟨64, [25, 144, 60, 100]⟩, ⟨64, []⟩⟩, 0) := by
  have h := c7_single_transfer_in_flight
    ⟨true, false, false, ⟨64, [25, 144, 60, 100]⟩, ⟨64, []⟩⟩
  have h2 := c7_single_transfer_in_flight
    ⟨true, true, false, ⟨64, [25, 144, 60, 100]⟩, ⟨64, []⟩⟩
  exact ⟨h.2.2.2.2.1 rfl rfl (by decide), h2.1 rfl⟩

/-- C8: a completion with non-zero status, in both directions, skips the
buffer-cursor advance (ring buffer unchanged) but still performs the next
re-arm attempt; no decode task is scheduled on the RX side and neither
callback produces an error value — the error is never surfaced to the
application. -/
theorem c8_error_completion_recovery (s : MidiState) (res n : Nat)
    (incoming : List Nat) (hres : res ≠ 0) :
    MidiMulti.tx_cb s res n = MidiMulti.tx_xfer { s with txPending := false } ∧
    (MidiMulti.tx_cb s res n).1.tx_buffer = s.tx_buffer ∧
    MidiMulti.rx_cb s res incoming
      = ((MidiMulti.rx_xfer { s with rxPending := false }).1,
         (MidiMulti.rx_xfer { s with rxPending := false }).2, false) ∧
    (MidiMulti.rx_cb s res incoming).1.rx_buffer = s.rx_buffer ∧
    (MidiMulti.rx_cb s res incoming).2.2 = false := by
  have hbeq : (res == 0) = false := by simp [hres]
  have h1 : MidiMulti.tx_cb s res n = MidiMulti.tx_xfer { s with txPending := false } := by
    unfold MidiMulti.tx_cb
    rw [hbeq]
    simp
  have h3 : MidiMulti.rx_cb s res incoming
      = ((MidiMulti.rx_xfer { s with rxPending := false }).1,
         (MidiMulti.rx_xfer { s with rxPending := false }).2, false) := by
    unfold MidiMulti.rx_cb
    rw [hbeq]
    simp
  refine ⟨h1, ?_, h3, ?_, ?_⟩
  · rw [h1, (tx_xfer_buffers _).1]
  · rw [h3]
    simp only [(rx_xfer_buffers _).2.1]
  · rw [h3]

/-- C8 witness: a failed completion (status 1) on an open state leaves both
buffers untouched, re-arms, and schedules no decode. -/
theorem c8_error_completion_recovery_witness :
    (MidiMulti.tx_cb ⟨true, true, true, ⟨64, [1, 2, 3, 4]⟩, ⟨64, [9]⟩⟩ 1 4).1.tx_buffer
      = (⟨64, [1, 2, 3, 4]⟩ : Buffer) ∧
    (MidiMulti.rx_cb ⟨true, true, true, ⟨64, [1, 2, 3, 4]⟩, ⟨64, [9]⟩⟩ 1 [5, 6, 7, 8]).1.rx_buffer
      = (⟨64, [9]⟩ : Buffer) ∧
    (MidiMulti.rx_cb ⟨true, true, true, ⟨64, [1, 2, 3, 4]⟩, ⟨64, [9]⟩⟩ 1 [5, 6, 7, 8]).2.2
      = false := by
  have h := c8_error_completion_recovery ⟨true, true, true, ⟨64, [1, 2, 3, 4]⟩, ⟨64, [9]⟩⟩
    1 4 [5, 6, 7, 8] (by decide)
  exact ⟨h.2.1, h.2.2.2.1, h.2.2.2.2⟩

/-- C10: while the device is not open, `send_event` with at least 4 free
bytes still returns `True` and queues the packet, issuing no submit (the
re-arm is guarded by `is_open()`); the queued data is submitted when
`on_open` later kicks the pumps (one TX submit). -/
theorem c10_queue_while_closed (s : MidiState) (cable cin m0 m1 m2 : Nat)
    (hopen : s.opened = false) (htx : s.txPending = false)
    (hc : cable ≤ 15) (hcin : cin ≤ 255) (hm0 : m0 ≤ 255) (hm1 : m1 ≤ 255)
    (hm2 : m2 ≤ 255) (hfree : 4 ≤ s.tx_buffer.writableLen) :
    MidiMulti.send_event s cable cin m0 m1 m2 =
      Except.ok
        ({ s with tx_buffer := s.tx_buffer.finish_write [(cable <<< 4) ||| cin, m0, m1, m2] },
         true, 0) ∧
    (MidiMulti.on_open
        { s with tx_buffer := s.tx_buffer.finish_write [(cable <<< 4) ||| cin, m0, m1, m2] }).2.1
      = 1 := by
  have hb0 : (cable <<< 4) ||| cin ≤ 255 := packed_byte_le cable cin hc hcin
  have hs := send_event_success s cable cin m0 m1 m2 hfree hb0 hm0 hm1 hm2
  have hnoop : MidiMulti.tx_xfer
      { s with tx_buffer := s.tx_buffer.finish_write [(cable <<< 4) ||| cin, m0, m1, m2] }
      = ({ s with tx_buffer := s.tx_buffer.finish_write [(cable <<< 4) ||| cin, m0, m1, m2] }, 0) := by
    unfold MidiMulti.tx_xfer
    rw [if_neg (by simp [hopen])]
  constructor
  · rw [hs, hnoop]
  · unfold MidiMulti.on_open
    simp only
    unfold MidiMulti.tx_xfer
    rw [if_pos (by simp [htx, Buffer.readableLen, Buffer.finish_write])]

/-- C10 witness: a closed idle device queues a Note On on cable 1 with no
submit; opening the device then issues the TX submit. -/
theorem c10_queue_while_closed_witness :
    MidiMulti.send_event ⟨false, false, false, ⟨64, []⟩, ⟨64, []⟩⟩ 1 9 0x90 60 100 =
      Except.ok (⟨false, false, false, ⟨64, [0x19, 0x90, 60, 100]⟩, ⟨64, []⟩⟩, true, 0) ∧
    (MidiMulti.on_open ⟨false, false, false, ⟨64, [0x19, 0x90, 60, 100]⟩, ⟨64, []⟩⟩).2.1 = 1 := by
  have h := c10_queue_while_closed ⟨false, false, false, ⟨64, []⟩, ⟨64, []⟩⟩ 1 9 0x90 60 100
    rfl rfl (by decide) (by decide) (by decide) (by decide) (by decide) (by decide)
  exact ⟨h.1.trans (by decide), h.2⟩

end UsbMidi
